import Mathlib

/-!
Formal model of the Simbody physics adapter (`SimbodyPhysics.cc`) of the
Gazebo simulator, together with proofs of the behavioural properties of its
stepping loop, model initialisation, contact-geometry synthesis, gravity
configuration, factory error behaviour, mobilizer construction and locking
discipline.

Times, masses and coordinates are modelled over `ℚ` (the C++ code uses
doubles; all the constants appearing in the code are exactly representable).
-/

/-! ## Basic vector and matrix algebra (gazebo `math::Vector3`, Simbody
`Rotation`/`Transform`, restricted to the operations the adapter uses). -/

/-- A 3-vector with rational coordinates (`math::Vector3` / `SimTK::Vec3`). -/
structure Vec3 where
  x : ℚ
  y : ℚ
  z : ℚ
deriving DecidableEq, Repr

/-- Componentwise addition. -/
def vadd (a b : Vec3) : Vec3 := ⟨a.x + b.x, a.y + b.y, a.z + b.z⟩

/-- Scalar multiple of a vector. -/
def smul (c : ℚ) (v : Vec3) : Vec3 := ⟨c * v.x, c * v.y, c * v.z⟩

/-- Dot product. -/
def dot (a b : Vec3) : ℚ := a.x * b.x + a.y * b.y + a.z * b.z

/-- Squared Euclidean norm; `v.norm() == 0` iff `normSq v = 0`. -/
def normSq (v : Vec3) : ℚ := dot v v

/-- The zero vector. -/
def vzero : Vec3 := ⟨0, 0, 0⟩

/-- A 3×3 matrix given by its rows (used for Simbody `Rotation` values). -/
structure Mat3 where
  r1 : Vec3
  r2 : Vec3
  r3 : Vec3
deriving DecidableEq, Repr

/-- Matrix transpose. Simbody writes the inverse of a `Rotation` as `~R`;
for rotation matrices the inverse is the transpose. -/
def transposeM (m : Mat3) : Mat3 :=
  ⟨⟨m.r1.x, m.r2.x, m.r3.x⟩, ⟨m.r1.y, m.r2.y, m.r3.y⟩, ⟨m.r1.z, m.r2.z, m.r3.z⟩⟩

/-- Matrix–vector product. -/
def matVec (m : Mat3) (v : Vec3) : Vec3 := ⟨dot m.r1 v, dot m.r2 v, dot m.r3 v⟩

/-- Matrix–matrix product. -/
def matMul (a b : Mat3) : Mat3 :=
  let bt := transposeM b
  ⟨⟨dot a.r1 bt.r1, dot a.r1 bt.r2, dot a.r1 bt.r3⟩,
   ⟨dot a.r2 bt.r1, dot a.r2 bt.r2, dot a.r2 bt.r3⟩,
   ⟨dot a.r3 bt.r1, dot a.r3 bt.r2, dot a.r3 bt.r3⟩⟩

/-- A rigid transform (`SimTK::Transform`): rotation part `R` and
translation part `p`. -/
structure Transform where
  R : Mat3
  p : Vec3
deriving DecidableEq, Repr

/-- Inverse of a rigid transform, Simbody's `~X`:
`(~X).R = ~R` and `(~X).p = -(~R * p)`. -/
def invTransform (X : Transform) : Transform :=
  ⟨transposeM X.R, smul (-1) (matVec (transposeM X.R) X.p)⟩

/-! ## Integrator stepping loop (`SimbodyPhysics::UpdatePhysics`)

```cpp
while (integ->getTime() < this->world->GetSimTime().Double())
  this->integ->stepTo(this->world->GetSimTime().Double(),
                      this->world->GetSimTime().Double());
```

The `RungeKutta2Integrator` is external to the repository; one call to
`stepTo(target, target)` is modelled as advancing the integrator time by at
most one internal step `h > 0` and never past the advance limit `target`
(Simbody may return early at internal report or event times, which is why
the adapter loops). -/

/-- One backend `stepTo(target, target)` call: the internal time advances by
at most the internal step size `h` and never past `target`. -/
def stepTo (h t target : ℚ) : ℚ := min (t + h) target

/-- Each `stepTo` call strictly decreases the number of internal steps still
needed to reach the target; this is the termination measure of the loop. -/
theorem stepTo_measure_lt (h target t : ℚ) (hpos : 0 < h) (ht : t < target) :
    (⌈(target - stepTo h t target) / h⌉).toNat < (⌈(target - t) / h⌉).toNat := by
  simp only [stepTo]
  rcases le_or_lt target (t + h) with hc | hc
  · rw [min_eq_right hc, sub_self, zero_div]
    have h1 : (0:ℚ) < (target - t) / h := div_pos (by linarith) hpos
    have h2 : (1:ℤ) ≤ ⌈(target - t) / h⌉ := Int.ceil_pos.mpr h1
    simp only [Int.ceil_zero, Int.toNat_zero]
    omega
  · rw [min_eq_left (le_of_lt hc)]
    have hrw : (target - (t + h)) / h = (target - t) / h - 1 := by
      field_simp
      ring
    rw [hrw, Int.ceil_sub_one]
    have h1 : (0:ℚ) < (target - t) / h := div_pos (by linarith) hpos
    have h2 : (1:ℤ) ≤ ⌈(target - t) / h⌉ := Int.ceil_pos.mpr h1
    omega

/-- The `while` loop of `UpdatePhysics`: keep calling `stepTo` while the
integrator time is strictly below the world's simulation time. -/
def stepLoop (h : ℚ) (hpos : 0 < h) (target t : ℚ) : ℚ :=
  if _ht : t < target then stepLoop h hpos target (stepTo h t target) else t
termination_by (⌈(target - t) / h⌉).toNat
decreasing_by
  exact stepTo_measure_lt h target t hpos _ht

/-- After the loop, the integrator time is at least the target. -/
theorem stepLoop_ge (h : ℚ) (hpos : 0 < h) (target t : ℚ) :
    target ≤ stepLoop h hpos target t := by
  rw [stepLoop]
  split
  · exact stepLoop_ge h hpos target _
  · linarith [not_lt.mp (by assumption : ¬ t < target)]
termination_by (⌈(target - t) / h⌉).toNat
decreasing_by
  exact stepTo_measure_lt h target t hpos (by assumption)

/-- The loop never moves the integrator time backward. -/
theorem stepLoop_mono (h : ℚ) (hpos : 0 < h) (target t : ℚ) :
    t ≤ stepLoop h hpos target t := by
  rw [stepLoop]
  split
  · have hstep : t ≤ stepTo h t target := by
      simp only [stepTo, le_min_iff]
      constructor
      · linarith
      · linarith [lt_of_lt_of_le (by assumption : t < target) le_rfl]
    exact le_trans hstep (stepLoop_mono h hpos target _)
  · exact le_rfl
termination_by (⌈(target - t) / h⌉).toNat
decreasing_by
  exact stepTo_measure_lt h target t hpos (by assumption)

/-- Integrator times reported after a sequence of `UpdatePhysics` calls with
the given target times, starting from integrator time `t0`. -/
def runSteps (h : ℚ) (hpos : 0 < h) (t0 : ℚ) : List ℚ → List ℚ
  | [] => []
  | target :: rest =>
      let t1 := stepLoop h hpos target t0
      t1 :: runSteps h hpos t1 rest

/-- Number of `stepTo` calls the `while` loop of `UpdatePhysics` performs. -/
def stepCount (h : ℚ) (hpos : 0 < h) (target t : ℚ) : Nat :=
  if _ht : t < target then stepCount h hpos target (stepTo h t target) + 1 else 0
termination_by (⌈(target - t) / h⌉).toNat
decreasing_by
  exact stepTo_measure_lt h target t hpos _ht

/-! ## Collision shapes and contact geometry
(`SimbodyPhysics::AddCollisionsToLink`) -/

/-- The shape data of one gazebo collision, as read by
`AddCollisionsToLink` through `GetShapeType()` and the shape accessors.
Shape kinds outside plane/sphere/cylinder/box fall into the `default:`
branch of the `switch`. -/
inductive ShapeData
  | plane (normal : Vec3)
  | sphere (radius : ℚ)
  | cylinder (radius length : ℚ)
  | box (size : Vec3)
  | heightmap
  | trimesh
  | multiray
  | ray
deriving DecidableEq, Repr

/-- A gazebo world pose (`math::Pose`), represented by its rotation and
position; `Pose2Transform`/`Transform2Pose` below convert between this and
the backend transform representation. -/
structure Pose where
  rot : Mat3
  pos : Vec3
deriving DecidableEq, Repr

/-- Modelled from the spec: `SimbodyPhysics::Pose2Transform` (declared in
`SimbodyPhysics.hh`, defined outside the provided sources) converts a world
pose into the equivalent backend rigid transform. -/
def Pose2Transform (p : Pose) : Transform := ⟨p.rot, p.pos⟩

/-- Modelled from the spec: `SimbodyPhysics::Transform2Pose` (declared in
`SimbodyPhysics.hh`, defined outside the provided sources) converts a
backend rigid transform into the world's pose representation. -/
def Transform2Pose (x : Transform) : Pose := ⟨x.R, x.p⟩

/-- One collision element of a link: its pose relative to the link
(`GetRelativePose()`) and its shape. -/
structure SimbodyCollision where
  relPose : Pose
  shape : ShapeData
deriving DecidableEq, Repr

/-- The fixed contact material constructed at the top of
`AddCollisionsToLink`. -/
structure ContactMaterialData where
  stiffness : ℚ
  dissipation : ℚ
  muStatic : ℚ
  muDynamic : ℚ
  muViscous : ℚ
deriving DecidableEq, Repr

/-- `SimTK::ContactMaterial material(1e6, 0.1, 0.7, 0.5, 0.5)`. -/
def contactMaterial : ContactMaterialData :=
  ⟨1000000, 1/10, 7/10, 5/10, 5/10⟩

/-- The contact geometry object passed to a `ContactSurface`. -/
inductive ContactGeom
  | halfSpace
  | sphere (radius : ℚ)
  | ellipsoid (semiAxes : Vec3)
deriving DecidableEq, Repr

/-- The placement transform with which `addContactSurface` is called.
The two rotation constructions are recorded with the arguments the adapter
passes to the external Simbody constructors:
`rotFromNegNormalX n` is `Rotation(-UnitVec3(n), XAxis)` and `rotYHalfPi`
is `Rotation(Pi/2, YAxis)`. -/
inductive SurfacePlacement
  | rotFromNegNormalX (normal : Vec3)
  | rotYHalfPi
  | relTransform (x : Transform)
deriving DecidableEq, Repr

/-- One synthesized backend contact surface: geometry, placement, material
and the contact clique it was joined to (if any). -/
structure ContactSurface where
  geom : ContactGeom
  placement : SurfacePlacement
  material : ContactMaterialData
  clique : Option Nat
deriving DecidableEq, Repr

/-- Which body a contact surface was added to: the link's own mobilized
body (`_mobod.updBody()`) or the global ground body
(`matter.Ground().updBody()`). -/
inductive SurfTarget
  | mobilizedBody
  | ground
deriving DecidableEq, Repr

/-- The contact surfaces created for one collision element, in creation
order, each tagged with the body it is added to. `cl` is the clique the
per-shape surface joins when `addModelClique` held (`none` otherwise).
This is the body of the `switch` in `AddCollisionsToLink`:

* plane: first a half-space surface on the ground body placed with
  `Rotation(Pi/2, YAxis)` and joining no clique, then a half-space surface
  on the link's body oriented from the declared normal;
* sphere: a sphere of the shape's radius at the collision's relative pose;
* cylinder: an ellipsoid with semi-axes `(r, r, len/2)`;
* box: an ellipsoid sized to the box's half-extents (`GetSize()/2`);
* anything else falls into `default:`, which only logs
  "Collision type unimplemented" and creates nothing. -/
def collisionSurfaces (cl : Option Nat) (c : SimbodyCollision) :
    List (SurfTarget × ContactSurface) :=
  let X_LC := Pose2Transform c.relPose
  match c.shape with
  | .plane n =>
      [(SurfTarget.ground,
         ⟨ContactGeom.halfSpace, SurfacePlacement.rotYHalfPi,
          contactMaterial, none⟩),
       (SurfTarget.mobilizedBody,
         ⟨ContactGeom.halfSpace, SurfacePlacement.rotFromNegNormalX n,
          contactMaterial, cl⟩)]
  | .sphere r =>
      [(SurfTarget.mobilizedBody,
         ⟨ContactGeom.sphere r, SurfacePlacement.relTransform X_LC,
          contactMaterial, cl⟩)]
  | .cylinder r len =>
      [(SurfTarget.mobilizedBody,
         ⟨ContactGeom.ellipsoid ⟨r, r, len/2⟩,
          SurfacePlacement.relTransform X_LC, contactMaterial, cl⟩)]
  | .box sz =>
      [(SurfTarget.mobilizedBody,
         ⟨ContactGeom.ellipsoid (smul (1/2) sz),
          SurfacePlacement.relTransform X_LC, contactMaterial, cl⟩)]
  | _ => []

/-- A gazebo link as seen by the adapter (`SimbodyLink`). `masterMobod` and
`dirtyPose` are the fields mutated by the builder and by `UpdatePhysics`. -/
structure SimbodyLink where
  name : String
  selfCollide : Bool
  collisions : List SimbodyCollision
  mustBeBaseLink : Bool
  mass : ℚ
deriving DecidableEq, Repr

/-- `SimbodyPhysics::AddCollisionsToLink(link, mobod, modelClique)`:
iterate over the link's collisions and create contact surfaces. The
per-shape surfaces join `modelClique` exactly when
`_modelClique.isValid() && !_link->GetSelfCollide()`. A `none` clique
models an invalid (default-constructed) `ContactCliqueId`. -/
def addCollisionsToLink (link : SimbodyLink) (modelClique : Option Nat) :
    List (SurfTarget × ContactSurface) :=
  let addModelClique := modelClique.isSome && !link.selfCollide
  let cl := if addModelClique then modelClique else none
  link.collisions.flatMap (collisionSurfaces cl)

/-! ## Model initialisation (`SimbodyPhysics::InitModel`) -/

/-- Identity of a backend body: the ground body or the `i`-th mobilized
body created for the model. -/
inductive BodyId
  | ground
  | mobod (idx : Nat)
deriving DecidableEq, Repr

/-- A gazebo model as seen by the adapter. -/
structure SimbodyModel where
  name : String
  isStatic : Bool
  links : List SimbodyLink
deriving DecidableEq, Repr

/-- Result of initialising one model into the backend system: whether
`CreateMultibodyGraph` ran, the mobilizers created, every created contact
surface tagged with the body it was attached to, and the master body
recorded on each link. -/
structure BuildOut where
  graphBuilt : Bool
  mobilizers : List Nat
  surfaces : List (BodyId × ContactSurface)
  masters : List (String × BodyId)
deriving Repr

/-- Resolve a surface target against the body the collision pass was run
for. -/
def resolveTarget (body : BodyId) : SurfTarget → BodyId
  | SurfTarget.mobilizedBody => body
  | SurfTarget.ground => BodyId.ground

/-- `SimbodyPhysics::AddStaticModelToSimbodySystem`: for every link of the
model, run `AddCollisionsToLink(link, matter.updGround(), ContactCliqueId())`
(an invalid clique) and set the link's master body to the ground body.
No multibody graph is built and no mobilizer is created. -/
def addStaticModelToSimbodySystem (m : SimbodyModel) : BuildOut :=
  { graphBuilt := false
    mobilizers := []
    surfaces := (m.links.map (fun l =>
      (addCollisionsToLink l none).map
        (fun ts => (resolveTarget BodyId.ground ts.1, ts.2)))).flatten
    masters := m.links.map (fun l => (l.name, BodyId.ground)) }

/-- Modelled from the spec: the non-static path of `InitModel` runs the
external `SimTK::MultibodyGraphMaker` over the model and then
`AddDynamicModelToSimbodySystem`. The spec records that every non-static
link gets exactly one master mobilized body and that collision geometry is
added to each mobilized body under a freshly created valid model clique;
only the fact that this path, not the static one, builds the graph and
creates mobilizers is used by the theorems below. -/
def addDynamicModelToSimbodySystem (m : SimbodyModel) : BuildOut :=
  let modelClique : Option Nat := some 0
  { graphBuilt := true
    mobilizers := List.range m.links.length
    surfaces := (m.links.enum.map (fun il =>
      (addCollisionsToLink il.2 modelClique).map
        (fun ts => (resolveTarget (BodyId.mobod il.1) ts.1, ts.2)))).flatten
    masters := m.links.enum.map (fun il => (il.2.name, BodyId.mobod il.1)) }

/-- `SimbodyPhysics::InitModel`: a static model is added through
`AddStaticModelToSimbodySystem`; otherwise `CreateMultibodyGraph` and
`AddDynamicModelToSimbodySystem` run. -/
def initModel (m : SimbodyModel) : BuildOut :=
  if m.isStatic then addStaticModelToSimbodySystem m
  else addDynamicModelToSimbodySystem m

/-! ## Factory methods (`CreateShape`, `CreateJoint`) -/

/-- Outcome of a factory call: a constructed element, a thrown construction
error (`gzthrow`), or a null result accompanied only by a logged diagnostic
(`gzerr`). -/
inductive FactoryOutcome (α : Type)
  | ok (val : α)
  | thrown (msg : String)
  | nullLogged (msg : String)
deriving DecidableEq, Repr

/-- The joint classes `CreateJoint` can instantiate. -/
inductive JointClass
  | hinge
  | universal
  | ball
  | slider
  | hinge2
  | screw
deriving DecidableEq, Repr

/-- `SimbodyPhysics::CreateJoint`: dispatch on the type string; an
unrecognised string hits `gzthrow("Unable to create joint of type[...]")`. -/
def createJoint (t : String) : FactoryOutcome JointClass :=
  if t = "revolute" then .ok .hinge
  else if t = "universal" then .ok .universal
  else if t = "ball" then .ok .ball
  else if t = "prismatic" then .ok .slider
  else if t = "revolute2" then .ok .hinge2
  else if t = "screw" then .ok .screw
  else .thrown ("Unable to create joint of type[" ++ t ++ "]")

/-- The shape classes `CreateShape` can instantiate. -/
inductive ShapeClass
  | plane
  | sphere
  | box
  | cylinder
  | trimesh
  | heightmap
  | multiray
  | ray
deriving DecidableEq, Repr

/-- `SimbodyPhysics::CreateShape`: dispatch on the type string; an
unrecognised string only logs
`gzerr << "Unable to create collision of type[...]"` and leaves the shape
pointer null — no exception is thrown. -/
def createShape (t : String) : FactoryOutcome ShapeClass :=
  if t = "plane" then .ok .plane
  else if t = "sphere" then .ok .sphere
  else if t = "box" then .ok .box
  else if t = "cylinder" then .ok .cylinder
  else if t = "mesh" || t = "trimesh" then .ok .trimesh
  else if t = "heightmap" then .ok .heightmap
  else if t = "multiray" then .ok .multiray
  else if t = "ray" then .ok .ray
  else .nullLogged ("Unable to create collision of type[" ++ t ++ "]")

/-- The joint type strings `CreateJoint` accepts. -/
def supportedJointTypes : List String :=
  ["revolute", "universal", "ball", "prismatic", "revolute2", "screw"]

/-- The shape type strings `CreateShape` accepts. -/
def supportedShapeTypes : List String :=
  ["plane", "sphere", "box", "cylinder", "mesh", "trimesh", "heightmap",
   "multiray", "ray"]

/-- `SimbodyPhysics::CreateCollision` forwards the type string to
`CreateShape`, then unconditionally calls `collision->SetShape(shape)` and
`shape->SetWorld(...)` on the result; it contains no error handling of its
own. -/
def createCollision (t : String) : FactoryOutcome ShapeClass :=
  createShape t

/-! ## Gravity configuration (`SetGravity`, `InitSimbodySystem`) -/

/-- `SimbodyPhysics::SetGravity` only stores the vector into the sdf
`gravity/xyz` attribute; `GetGravity()` later reads this value back. -/
def setGravity (v : Vec3) : Vec3 := v

/-- The gravity configuration `InitSimbodySystem` leaves on the
`SimTK::Force::Gravity` element: either only a default magnitude of zero,
or a default gravity vector. -/
inductive GravityCfg
  | magnitudeZero
  | defaultVector (v : Vec3)
deriving DecidableEq, Repr

/-- `SimbodyPhysics::InitSimbodySystem` (gravity part):

```cpp
if (!math::equal(g.norm(), 0.0))
  this->gravity.setDefaultGravityVector(g);
else
  this->gravity.setDefaultMagnitude(0.0);
```

`math::equal` lives outside the provided sources; modelled from the spec
("`SetGravity` with the zero vector sets magnitude 0") as the exact test
`g.norm() == 0`, i.e. `normSq g = 0` over `ℚ`. -/
def initSimbodyGravity (g : Vec3) : GravityCfg :=
  if normSq g ≠ 0 then GravityCfg.defaultVector g
  else GravityCfg.magnitudeZero

/-- Modelled from the spec: the external
`Force::Gravity::setDefaultGravityVector(v)` stores the unit direction
`v/|v|` and the magnitude `|v|`. `IsGravityDecomp cfg d mag` says that the
configuration's effective direction is `d` and magnitude `mag`: for a
vector configuration, `mag • d = v` with `d` a unit vector and `mag ≥ 0`;
for the zero configuration the magnitude is `0` and no direction was
computed. -/
def IsGravityDecomp (cfg : GravityCfg) (d : Vec3) (mag : ℚ) : Prop :=
  match cfg with
  | GravityCfg.magnitudeZero => mag = 0
  | GravityCfg.defaultVector v => smul mag d = v ∧ normSq d = 1 ∧ 0 ≤ mag

/-! ## Mobilizer construction for input joints
(`SimbodyPhysics::AddDynamicModelToSimbodySystem`, joint branch) -/

/-- The gazebo joint types handled by the joint branch of the mobilizer
loop. -/
inductive GzJointType
  | free
  | revolute
  | prismatic
  | ball
deriving DecidableEq, Repr

/-- The mobilizer direction argument passed to the Simbody constructors. -/
inductive MobDirection
  | forward
  | reverse
deriving DecidableEq, Repr

/-- The fields of a `SimbodyJoint` read by the mobilizer loop: the
parent-side anchor frame `X_PA`, the child-side anchor frame `X_CB`, the
default relative pose `defX_AB`, and the first local axis. -/
structure GzJointData where
  X_PA : Transform
  X_CB : Transform
  defX_AB : Transform
  localAxis0 : Vec3
deriving DecidableEq, Repr

/-- What the joint branch of the mobilizer loop produces for one joint:
the inboard and outboard frames passed to the Simbody constructor, the
direction argument, the default transform (free) or default rotation
(ball) seeded on it, and the reversal flag recorded back on the gazebo
joint (`gzJoint->isReversed = isReversed`). -/
structure BuiltMobilizer where
  inboardFrame : Transform
  outboardFrame : Transform
  direction : MobDirection
  defaultTransform : Option Transform
  defaultRotation : Option Mat3
  recordedReversed : Bool
deriving DecidableEq, Repr

/-- The joint branch of the mobilizer loop in
`AddDynamicModelToSimbodySystem`.

`rjz axis` models the external `Rotation(UnitVec3(axis), ZAxis)` (Simbody's
pin is along Z) and `rjx axis` models `Rotation(UnitVec3(axis), XAxis)`
(Simbody's slider is along X); both are kept as parameters because their
values are computed inside the external Simbody library.

```cpp
const Transform& X_IF0 = isReversed ? gzJoint->X_CB : gzJoint->X_PA;
const Transform& X_OM0 = isReversed ? gzJoint->X_PA : gzJoint->X_CB;
const MobilizedBody::Direction direction =
    isReversed ? MobilizedBody::Reverse : MobilizedBody::Forward;
```

free: `defX_FM = isReversed ? Transform(~defX_AB) : defX_AB`;
revolute: frames post-multiplied by `R_JZ`; prismatic: by `R_JX`;
ball: `defR_FM = isReversed ? Rotation(~defX_AB.R()) : defX_AB.R()`. -/
def buildJointMobilizer (rjz rjx : Vec3 → Mat3) (jt : GzJointType)
    (isReversed : Bool) (j : GzJointData) : BuiltMobilizer :=
  let X_IF0 := if isReversed then j.X_CB else j.X_PA
  let X_OM0 := if isReversed then j.X_PA else j.X_CB
  let dir := if isReversed then MobDirection.reverse else MobDirection.forward
  match jt with
  | GzJointType.free =>
      { inboardFrame := X_IF0
        outboardFrame := X_OM0
        direction := dir
        defaultTransform :=
          some (if isReversed then invTransform j.defX_AB else j.defX_AB)
        defaultRotation := none
        recordedReversed := isReversed }
  | GzJointType.revolute =>
      let RJZ := rjz j.localAxis0
      { inboardFrame := ⟨matMul X_IF0.R RJZ, X_IF0.p⟩
        outboardFrame := ⟨matMul X_OM0.R RJZ, X_OM0.p⟩
        direction := dir
        defaultTransform := none
        defaultRotation := none
        recordedReversed := isReversed }
  | GzJointType.prismatic =>
      let RJX := rjx j.localAxis0
      { inboardFrame := ⟨matMul X_IF0.R RJX, X_IF0.p⟩
        outboardFrame := ⟨matMul X_OM0.R RJX, X_OM0.p⟩
        direction := dir
        defaultTransform := none
        defaultRotation := none
        recordedReversed := isReversed }
  | GzJointType.ball =>
      { inboardFrame := X_IF0
        outboardFrame := X_OM0
        direction := dir
        defaultTransform := none
        defaultRotation :=
          some (if isReversed then transposeM j.defX_AB.R else j.defX_AB.R)
        recordedReversed := isReversed }

/-! ## World stepping and pose synchronisation (`UpdatePhysics`) -/

/-- A link as it appears during stepping: its entity name, the master
mobilized body recorded for it during initialisation, and the dirty pose
written by `SetDirtyPose`. -/
structure WorldLink where
  name : String
  masterMobod : BodyId
  dirtyPose : Option Pose
deriving DecidableEq, Repr

/-- A model in the world during stepping. -/
structure WorldModel where
  links : List WorldLink
deriving DecidableEq, Repr

/-- The world state touched by `UpdatePhysics`: the loaded models, the
shared `dirtyPoses` pending-update list (entity names, appended with
`push_back`), the current simulation time, the integrator's internal time
and the one-shot discrete forces applied since the last step
(`SimTK::Force::DiscreteForces`). -/
structure PhysWorld where
  models : List WorldModel
  dirtyPoses : List String
  simTime : ℚ
  integTime : ℚ
  discreteForces : List (BodyId × Vec3)
deriving DecidableEq, Repr

/-- The links of all models of the world, in iteration order. -/
def worldLinks (w : PhysWorld) : List WorldLink :=
  (w.models.map (fun m => m.links)).flatten

/-- `SimbodyPhysics::UpdatePhysics`, after taking the physics-update lock:

1. run the `while` loop advancing the integrator to the simulation time;
2. for every link of every model, convert the master body's spatial
   transform in the post-step state `s` to a pose, store it with
   `SetDirtyPose`, and `push_back` the link entity onto
   `world->dirtyPoses`;
3. clear all one-shot discrete forces from the advanced state.

`bt time body` models `body.getBodyTransform(s)` where `s` is the
integrator state at the given time. -/
def updatePhysics (h : ℚ) (hpos : 0 < h) (bt : ℚ → BodyId → Transform)
    (w : PhysWorld) : PhysWorld :=
  let tAfter := stepLoop h hpos w.simTime w.integTime
  { models := w.models.map (fun m =>
      { links := m.links.map (fun l =>
          { l with
            dirtyPose := some (Transform2Pose (bt tAfter l.masterMobod)) }) })
    dirtyPoses := w.dirtyPoses ++ (worldLinks w).map (fun l => l.name)
    simTime := w.simTime
    integTime := tAfter
    discreteForces := [] }

/-! ## Locking discipline of `UpdatePhysics`

```cpp
boost::recursive_mutex::scoped_lock lock(*this->physicsUpdateMutex);
```

The scoped lock is constructed in the first statement of `UpdatePhysics`
and released when the function returns, so the event trace of one call is
an acquire, the work (stepping, pose synchronisation, force clearing), and
a release. Mutual exclusion against other critical sections of the same
mutex is proved over an interleaving semantics below. -/

/-- The observable events of one `UpdatePhysics` call. -/
inductive PhysEvent
  | lockAcquire
  | integStep
  | poseSync (linkName : String)
  | clearForces
  | lockRelease
deriving DecidableEq, Repr

/-- Whether an event is plain work (neither acquire nor release). -/
def isWorkEvent : PhysEvent → Bool
  | PhysEvent.lockAcquire => false
  | PhysEvent.lockRelease => false
  | _ => true

/-- The work performed by one `UpdatePhysics` call, in program order:
the integrator steps, one pose-synchronisation event per link of every
model, and the clearing of the discrete forces. -/
def updatePhysicsWork (h : ℚ) (hpos : 0 < h) (w : PhysWorld) :
    List PhysEvent :=
  List.replicate (stepCount h hpos w.simTime w.integTime) PhysEvent.integStep
    ++ (worldLinks w).map (fun l => PhysEvent.poseSync l.name)
    ++ [PhysEvent.clearForces]

/-- The event trace of one `UpdatePhysics` call: the scoped lock is
acquired on entry and released when the call returns. -/
def updatePhysicsEvents (h : ℚ) (hpos : 0 < h) (w : PhysWorld) :
    List PhysEvent :=
  PhysEvent.lockAcquire :: (updatePhysicsWork h hpos w
    ++ [PhysEvent.lockRelease])

/-- Lock-relevant view of an event. -/
inductive LockEv
  | acq
  | rel
  | work
deriving DecidableEq, Repr

/-- Project a physics event onto its lock-relevant view. -/
def toLockEv : PhysEvent → LockEv
  | PhysEvent.lockAcquire => LockEv.acq
  | PhysEvent.lockRelease => LockEv.rel
  | _ => LockEv.work

/-- The two execution contexts contending for `physicsUpdateMutex`: the
physics thread running `UpdatePhysics` and a thread mutating world
topology (model insertion/removal, world reset). -/
inductive Tid
  | phys
  | topo
deriving DecidableEq, Repr

/-- One step of the recursive mutex: `none` means free, `some (t, n)`
means held by `t` with recursion depth `n + 1`. An acquire blocks (is not
schedulable) while another thread holds the lock; plain work never touches
the lock. -/
def lockNext : Option (Tid × Nat) → Tid × LockEv → Option (Option (Tid × Nat))
  | none, (t, LockEv.acq) => some (some (t, 0))
  | none, (_, LockEv.rel) => none
  | none, (_, LockEv.work) => some none
  | some (t0, n), (t, LockEv.acq) =>
      if t = t0 then some (some (t0, n + 1)) else none
  | some (t0, n), (t, LockEv.rel) =>
      if t = t0 then some (if n = 0 then none else some (t0, n - 1)) else none
  | some st, (_, LockEv.work) => some (some st)

/-- A schedule is valid from a lock state when every event is schedulable
under the recursive-mutex semantics. -/
def ValidSched : Option (Tid × Nat) → List (Tid × LockEv) → Prop
  | _, [] => True
  | st, e :: rest =>
      match lockNext st e with
      | none => False
      | some st2 => ValidSched st2 rest

/-- `Ilv ta tb as bs s`: the schedule `s` is an interleaving of trace
`as` executed by thread `ta` and trace `bs` executed by thread `tb`,
preserving each thread's program order. -/
inductive Ilv (ta tb : Tid) : List LockEv → List LockEv → List (Tid × LockEv) → Prop
  | nil : Ilv ta tb [] [] []
  | left {e as bs s} : Ilv ta tb as bs s → Ilv ta tb (e :: as) bs ((ta, e) :: s)
  | right {e as bs s} : Ilv ta tb as bs s → Ilv ta tb as (e :: bs) ((tb, e) :: s)

/-! ## Helper values for concrete instantiations -/

/-- The identity rotation. -/
def idMat : Mat3 := ⟨⟨1, 0, 0⟩, ⟨0, 1, 0⟩, ⟨0, 0, 1⟩⟩

/-- The identity rigid transform. -/
def idTransform : Transform := ⟨idMat, vzero⟩

/-- A body-transform assignment placing every body at the origin. -/
def btZero : ℚ → BodyId → Transform := fun _ _ => idTransform

/-- `0 < 1` over `ℚ`, the positivity proof for a unit internal step. -/
theorem one_pos_q : (0:ℚ) < 1 := by norm_num

/-- A world holding a single two-link model, simulation time `1`,
integrator time `0`, an empty pending-update queue and one pending
discrete force. -/
def wTwoLink : PhysWorld :=
  { models := [⟨[⟨"link1", BodyId.mobod 0, none⟩,
                 ⟨"link2", BodyId.mobod 1, none⟩]⟩]
    dirtyPoses := []
    simTime := 1
    integTime := 0
    discreteForces := [(BodyId.mobod 0, ⟨0, 0, 1⟩)] }

/-- The world states produced by a sequence of `UpdatePhysics` calls whose
simulation (target) times are the given list. -/
def runUpdates (h : ℚ) (hpos : 0 < h) (bt : ℚ → BodyId → Transform)
    (w : PhysWorld) : List ℚ → List PhysWorld
  | [] => []
  | tg :: rest =>
      let w1 := updatePhysics h hpos bt { w with simTime := tg }
      w1 :: runUpdates h hpos bt w1 rest

/-- Across any sequence of `UpdatePhysics` calls the integrator time never
decreases (target monotonicity is not even needed). -/
theorem runUpdates_chain (h : ℚ) (hpos : 0 < h)
    (bt : ℚ → BodyId → Transform) (w : PhysWorld) (targets : List ℚ) :
    List.Chain' (· ≤ ·)
      (w.integTime ::
        (runUpdates h hpos bt w targets).map (fun x => x.integTime)) := by
  induction targets generalizing w with
  | nil => simp [runUpdates]
  | cons tg rest ih =>
      simp only [runUpdates, List.map_cons]
      rw [List.chain'_cons]
      exact ⟨stepLoop_mono h hpos tg w.integTime, ih _⟩

/-- C1: every `UpdatePhysics` call advances the integrator in a loop until
its internal time reaches or exceeds the world's simulation time, so
afterwards the reported integrator time is at least the target; the loop
never moves the time backward, and across any sequence of `UpdatePhysics`
calls with non-decreasing target times the reported times never
decrease. -/
theorem C1_updatePhysics_time_monotone (h : ℚ) (hpos : 0 < h)
    (bt : ℚ → BodyId → Transform) (w : PhysWorld) :
    w.simTime ≤ (updatePhysics h hpos bt w).integTime ∧
    w.integTime ≤ (updatePhysics h hpos bt w).integTime ∧
    (∀ targets : List ℚ, List.Chain' (· ≤ ·) targets →
      List.Chain' (· ≤ ·)
        (w.integTime ::
          (runUpdates h hpos bt w targets).map (fun x => x.integTime))) :=
  ⟨stepLoop_ge h hpos w.simTime w.integTime,
   stepLoop_mono h hpos w.simTime w.integTime,
   fun targets _ => runUpdates_chain h hpos bt w targets⟩

/-- Witness for C1 at a concrete input: internal step `1`, the two-link
world at simulation time `1`, and the non-decreasing target sequence
`[1, 2]`. -/
theorem C1_witness :
    ((0:ℚ) < 1 ∧ List.Chain' (· ≤ ·) [(1:ℚ), 2]) ∧
    (wTwoLink.simTime ≤ (updatePhysics 1 one_pos_q btZero wTwoLink).integTime ∧
     List.Chain' (· ≤ ·)
       (wTwoLink.integTime ::
         (runUpdates 1 one_pos_q btZero wTwoLink [1, 2]).map
           (fun x => x.integTime))) :=
  ⟨⟨one_pos_q, by norm_num [List.chain'_cons]⟩,
   (C1_updatePhysics_time_monotone 1 one_pos_q btZero wTwoLink).1,
   (C1_updatePhysics_time_monotone 1 one_pos_q btZero wTwoLink).2.2 [1, 2]
     (by norm_num [List.chain'_cons])⟩

/-- C8: at the end of every completed `UpdatePhysics` call the one-shot
discrete forces have been cleared from the advanced state
(`discreteForces.clearAllForces(integ->updAdvancedState())`), so none
persists into the next step. -/
theorem C8_discrete_forces_cleared (h : ℚ) (hpos : 0 < h)
    (bt : ℚ → BodyId → Transform) (w : PhysWorld) :
    (updatePhysics h hpos bt w).discreteForces = [] := rfl

/-- Witness for C8: the two-link world starts with a pending discrete
force, and after `UpdatePhysics` none remains. -/
theorem C8_witness :
    ((0:ℚ) < 1 ∧ wTwoLink.discreteForces ≠ []) ∧
    (updatePhysics 1 one_pos_q btZero wTwoLink).discreteForces = [] :=
  ⟨⟨one_pos_q, List.cons_ne_nil _ _⟩,
   C8_discrete_forces_cleared 1 one_pos_q btZero wTwoLink⟩

/-- `UpdatePhysics` rewrites every link's dirty pose from its master body's
transform in the post-step state. -/
theorem updatePhysics_worldLinks (h : ℚ) (hpos : 0 < h)
    (bt : ℚ → BodyId → Transform) (w : PhysWorld) :
    worldLinks (updatePhysics h hpos bt w) =
      (worldLinks w).map (fun l =>
        { l with dirtyPose := some (Transform2Pose
            (bt (stepLoop h hpos w.simTime w.integTime) l.masterMobod)) }) := by
  simp [worldLinks, updatePhysics, List.map_flatten, List.map_map,
    Function.comp_def]

/-- C3: after each `UpdatePhysics` call, exactly one entry per link of
every model of the world is appended to the `dirtyPoses` pending-update
list, the appended entry is the link entity itself (its name, not a
transform), and each link's dirty pose is the pose converted from its
master body's spatial transform in the post-step state; a world holding
one two-link model gains exactly two queue entries per step. -/
theorem C3_pose_sync (h : ℚ) (hpos : 0 < h) (bt : ℚ → BodyId → Transform)
    (w : PhysWorld) :
    ((updatePhysics h hpos bt w).dirtyPoses =
       w.dirtyPoses ++ (worldLinks w).map (fun l => l.name)) ∧
    ((updatePhysics h hpos bt w).dirtyPoses.length =
       w.dirtyPoses.length + (worldLinks w).length) ∧
    (∀ l ∈ worldLinks (updatePhysics h hpos bt w),
       l.dirtyPose = some (Transform2Pose
         (bt (stepLoop h hpos w.simTime w.integTime) l.masterMobod))) ∧
    ((updatePhysics h hpos bt wTwoLink).dirtyPoses.length = 2) := by
  refine ⟨rfl, ?_, ?_, ?_⟩
  · simp [updatePhysics]
  · intro l hl
    rw [updatePhysics_worldLinks] at hl
    obtain ⟨l0, _, rfl⟩ := List.mem_map.mp hl
    rfl
  · rfl

/-- Witness for C3: with the concrete two-link world, `UpdatePhysics`
appends exactly the two link entities. -/
theorem C3_witness :
    ((0:ℚ) < 1) ∧
    (updatePhysics 1 one_pos_q btZero wTwoLink).dirtyPoses =
      wTwoLink.dirtyPoses ++ (worldLinks wTwoLink).map (fun l => l.name) ∧
    (updatePhysics 1 one_pos_q btZero wTwoLink).dirtyPoses.length = 2 :=
  ⟨one_pos_q, (C3_pose_sync 1 one_pos_q btZero wTwoLink).1,
   (C3_pose_sync 1 one_pos_q btZero wTwoLink).2.2.2⟩

/-- C2: `InitModel` of a static model bypasses graph construction
entirely (the multibody graph is not built and no mobilizer is created);
every contact surface created for its links is attached to the ground
body, and every link's master body is the ground body. -/
theorem C2_static_model (m : SimbodyModel) (hstatic : m.isStatic = true) :
    (initModel m).graphBuilt = false ∧
    (initModel m).mobilizers = [] ∧
    (∀ p ∈ (initModel m).surfaces, p.1 = BodyId.ground) ∧
    (∀ nb ∈ (initModel m).masters, nb.2 = BodyId.ground) := by
  have hm : initModel m = addStaticModelToSimbodySystem m := by
    simp [initModel, hstatic]
  rw [hm]
  refine ⟨rfl, rfl, ?_, ?_⟩
  · intro p hp
    simp only [addStaticModelToSimbodySystem, List.mem_flatten,
      List.mem_map] at hp
    obtain ⟨lst, ⟨l, hl, rfl⟩, hpl⟩ := hp
    obtain ⟨ts, _, rfl⟩ := List.mem_map.mp hpl
    cases hts : ts.1 <;> rfl
  · intro nb hnb
    simp only [addStaticModelToSimbodySystem, List.mem_map] at hnb
    obtain ⟨l, _, rfl⟩ := hnb
    rfl

/-- A concrete static model: one link carrying one sphere collision. -/
def mStaticExample : SimbodyModel :=
  ⟨"staticModel", true,
   [⟨"l1", false, [⟨⟨idMat, vzero⟩, ShapeData.sphere 1⟩], false, 1⟩]⟩

/-- Witness for C2 at the concrete static model. -/
theorem C2_witness :
    mStaticExample.isStatic = true ∧
    (initModel mStaticExample).graphBuilt = false ∧
    (initModel mStaticExample).mobilizers = [] :=
  ⟨rfl, (C2_static_model mStaticExample rfl).1,
   (C2_static_model mStaticExample rfl).2.1⟩

/-- C5: `SetGravity` with the zero vector leads to a gravity configuration
of magnitude `0` with no direction computed (the zero vector is never
normalised); with a nonzero vector the full vector is handed to
`setDefaultGravityVector`, whose effective direction is the normalised
vector and whose magnitude is the norm: for `(0, 0, -9.8)` the unique
unit-direction/magnitude decomposition is `(0, 0, -1)` and `9.8`. -/
theorem C5_gravity (v : Vec3) (hv : normSq v ≠ 0) :
    initSimbodyGravity (setGravity vzero) = GravityCfg.magnitudeZero ∧
    initSimbodyGravity (setGravity v) = GravityCfg.defaultVector v ∧
    IsGravityDecomp (initSimbodyGravity (setGravity ⟨0, 0, -49/5⟩))
      ⟨0, 0, -1⟩ (49/5) ∧
    (∀ d mag,
       IsGravityDecomp (initSimbodyGravity (setGravity ⟨0, 0, -49/5⟩)) d mag →
       d = ⟨0, 0, -1⟩ ∧ mag = 49/5) := by
  have h1 : initSimbodyGravity (setGravity ⟨0, 0, -49/5⟩)
      = GravityCfg.defaultVector ⟨0, 0, -49/5⟩ := by
    norm_num [initSimbodyGravity, setGravity, normSq, dot]
  refine ⟨?_, ?_, ?_, ?_⟩
  · simp [initSimbodyGravity, setGravity, normSq, dot, vzero]
  · simp [initSimbodyGravity, setGravity, hv]
  · rw [h1]
    refine ⟨?_, by norm_num [normSq, dot], by norm_num⟩
    simp only [smul, Vec3.mk.injEq]
    norm_num
  · intro d mag hdm
    rw [h1] at hdm
    obtain ⟨he, hn, hm⟩ := hdm
    obtain ⟨dx, dy, dz⟩ := d
    simp only [smul, Vec3.mk.injEq] at he
    obtain ⟨he1, he2, he3⟩ := he
    simp only [normSq, dot] at hn
    have hmagne : mag ≠ 0 := by
      intro h0
      rw [h0] at he3
      norm_num at he3
    have hx : dx = 0 := by
      rcases mul_eq_zero.mp he1 with h | h
      · exact absurd h hmagne
      · exact h
    have hy : dy = 0 := by
      rcases mul_eq_zero.mp he2 with h | h
      · exact absurd h hmagne
      · exact h
    have hz2 : dz * dz = 1 := by
      rw [hx, hy] at hn
      linarith
    have hzneg : dz = -1 := by
      rcases mul_self_eq_one_iff.mp hz2 with h | h
      · exfalso
        rw [h, mul_one] at he3
        rw [he3] at hm
        norm_num at hm
      · exact h
    have hmageq : mag = 49/5 := by
      rw [hzneg] at he3
      linarith
    exact ⟨by simp [hx, hy, hzneg], hmageq⟩

/-- Witness for C5 at the concrete gravity vector `(0, 0, -9.8)`. -/
theorem C5_witness :
    normSq ⟨0, 0, -49/5⟩ ≠ 0 ∧
    initSimbodyGravity (setGravity ⟨0, 0, -49/5⟩) =
      GravityCfg.defaultVector ⟨0, 0, -49/5⟩ ∧
    IsGravityDecomp (initSimbodyGravity (setGravity ⟨0, 0, -49/5⟩))
      ⟨0, 0, -1⟩ (49/5) :=
  ⟨by norm_num [normSq, dot],
   (C5_gravity ⟨0, 0, -49/5⟩ (by norm_num [normSq, dot])).2.1,
   (C5_gravity ⟨0, 0, -49/5⟩ (by norm_num [normSq, dot])).2.2.1⟩

/-- Counterexample for C6: at the unsupported type string `"cone"`,
`CreateShape`/`CreateCollision` raise no construction error — the factory
merely logs a diagnostic and leaves the shape pointer null — whereas
`CreateJoint` does throw. -/
theorem C6_counterexample :
    createCollision "cone" =
      FactoryOutcome.nullLogged "Unable to create collision of type[cone]" ∧
    createJoint "cone" =
      FactoryOutcome.thrown "Unable to create joint of type[cone]" := by
  constructor <;> rfl

/-- C6 (amended): for every type string outside the supported joint set,
`CreateJoint` throws a construction error the caller may treat as
non-fatal; for every type string outside the supported shape set,
`CreateShape` (and hence `CreateCollision`) does not throw — it logs a
diagnostic and returns a null shape, which `CreateCollision` then uses
unconditionally. -/
theorem C6_amended (t : String) (hj : t ∉ supportedJointTypes)
    (hs : t ∉ supportedShapeTypes) :
    createJoint t =
      FactoryOutcome.thrown ("Unable to create joint of type[" ++ t ++ "]") ∧
    createCollision t =
      FactoryOutcome.nullLogged
        ("Unable to create collision of type[" ++ t ++ "]") := by
  simp only [supportedJointTypes, List.mem_cons, List.not_mem_nil, or_false,
    not_or] at hj
  simp only [supportedShapeTypes, List.mem_cons, List.not_mem_nil, or_false,
    not_or] at hs
  obtain ⟨j1, j2, j3, j4, j5, j6⟩ := hj
  obtain ⟨s1, s2, s3, s4, s5, s6, s7, s8, s9⟩ := hs
  constructor
  · simp [createJoint, j1, j2, j3, j4, j5, j6]
  · simp [createCollision, createShape, s1, s2, s3, s4, s5, s6, s7, s8, s9]

/-- Witness for C6 (amended) at the concrete type string `"cone"`. -/
theorem C6_witness :
    ("cone" ∉ supportedJointTypes ∧ "cone" ∉ supportedShapeTypes) ∧
    createJoint "cone" =
      FactoryOutcome.thrown ("Unable to create joint of type[" ++ "cone" ++ "]") ∧
    createCollision "cone" =
      FactoryOutcome.nullLogged
        ("Unable to create collision of type[" ++ "cone" ++ "]") :=
  ⟨⟨by decide, by decide⟩, C6_amended "cone" (by decide) (by decide)⟩

/-- C7: a mobilizer built for an input joint traversed in reverse takes its
inboard frame from the joint's child-side anchor transform `X_CB` and its
outboard frame from the parent-side anchor transform `X_PA` — exactly the
swap of the forward case — is constructed with the reversed direction
argument, inverts the default relative transform for the free kind (full
rigid inverse) and the ball kind (rotation inverse), and records the
reversal on the joint for later state extraction. -/
theorem C7_reversed_mobilizer (rjz rjx : Vec3 → Mat3) (jt : GzJointType)
    (j : GzJointData) :
    (buildJointMobilizer rjz rjx jt true j).direction = MobDirection.reverse ∧
    (buildJointMobilizer rjz rjx jt true j).recordedReversed = true ∧
    (buildJointMobilizer rjz rjx jt true j).inboardFrame =
      (buildJointMobilizer rjz rjx jt false j).outboardFrame ∧
    (buildJointMobilizer rjz rjx jt true j).outboardFrame =
      (buildJointMobilizer rjz rjx jt false j).inboardFrame ∧
    ((jt = GzJointType.free ∨ jt = GzJointType.ball) →
      (buildJointMobilizer rjz rjx jt true j).inboardFrame = j.X_CB ∧
      (buildJointMobilizer rjz rjx jt true j).outboardFrame = j.X_PA) ∧
    (jt = GzJointType.free →
      (buildJointMobilizer rjz rjx jt true j).defaultTransform =
        some (invTransform j.defX_AB)) ∧
    (jt = GzJointType.ball →
      (buildJointMobilizer rjz rjx jt true j).defaultRotation =
        some (transposeM j.defX_AB.R)) := by
  cases jt <;> simp [buildJointMobilizer]

/-- A concrete joint for instantiating C7. -/
def jEx : GzJointData :=
  ⟨⟨idMat, ⟨1, 0, 0⟩⟩, ⟨idMat, ⟨0, 1, 0⟩⟩, ⟨idMat, ⟨0, 0, 1⟩⟩, ⟨0, 0, 1⟩⟩

/-- Witness for C7 at a concrete reversed free joint. -/
theorem C7_witness :
    (GzJointType.free = GzJointType.free ∨
       GzJointType.free = GzJointType.ball) ∧
    ((buildJointMobilizer (fun _ => idMat) (fun _ => idMat)
        GzJointType.free true jEx).inboardFrame = jEx.X_CB ∧
     (buildJointMobilizer (fun _ => idMat) (fun _ => idMat)
        GzJointType.free true jEx).outboardFrame = jEx.X_PA) ∧
    (buildJointMobilizer (fun _ => idMat) (fun _ => idMat)
        GzJointType.free true jEx).defaultTransform =
      some (invTransform jEx.defX_AB) :=
  ⟨Or.inl rfl,
   (C7_reversed_mobilizer (fun _ => idMat) (fun _ => idMat)
      GzJointType.free jEx).2.2.2.2.1 (Or.inl rfl),
   (C7_reversed_mobilizer (fun _ => idMat) (fun _ => idMat)
      GzJointType.free jEx).2.2.2.2.2.1 rfl⟩

/-! ## Ground-body side effect of plane shapes and shape dispatch -/

/-- Whether a collision carries a plane shape. -/
def isPlaneCollision (c : SimbodyCollision) : Bool :=
  match c.shape with
  | ShapeData.plane _ => true
  | _ => false

/-- The surfaces a collision pass adds to the global ground body, in
creation order. -/
def groundSurfacesOf (l : List (SurfTarget × ContactSurface)) :
    List ContactSurface :=
  (l.filter (fun p => decide (p.1 = SurfTarget.ground))).map (fun p => p.2)

/-- The surfaces a collision pass adds to the link's own mobilized body, in
creation order. -/
def bodySurfacesOf (l : List (SurfTarget × ContactSurface)) :
    List ContactSurface :=
  (l.filter (fun p => decide (p.1 = SurfTarget.mobilizedBody))).map
    (fun p => p.2)

/-- The extra half-space surface the plane branch adds to the ground body:
`Ground().updBody().addContactSurface(Rotation(Pi/2, YAxis),
ContactSurface(ContactGeometry::HalfSpace(), material))`. -/
def groundPlaneSurface : ContactSurface :=
  ⟨ContactGeom.halfSpace, SurfacePlacement.rotYHalfPi, contactMaterial, none⟩

/-- Ground surfaces produced by a run of collisions: one
`groundPlaneSurface` per plane collision. -/
theorem groundSurfaces_flatMap (cl : Option Nat)
    (cs : List SimbodyCollision) :
    groundSurfacesOf (cs.flatMap (collisionSurfaces cl)) =
      List.replicate (cs.countP isPlaneCollision) groundPlaneSurface := by
  induction cs with
  | nil => rfl
  | cons c rest ih =>
      rw [List.flatMap_cons]
      unfold groundSurfacesOf at ih ⊢
      rw [List.filter_append, List.map_append, ih]
      rcases c with ⟨rp, sh⟩
      cases sh <;>
        simp [collisionSurfaces, List.countP_cons, isPlaneCollision,
          groundPlaneSurface, List.replicate_succ]

/-- C10: for every plane collision processed by `AddCollisionsToLink`, one
extra half-space contact surface is added to the global ground body as a
side effect — exactly one per plane shape, placed with the rotation
`Rotation(Pi/2, YAxis)` and never joined to any clique. -/
theorem C10_plane_ground_side_effect (link : SimbodyLink)
    (modelClique : Option Nat) :
    groundSurfacesOf (addCollisionsToLink link modelClique) =
      List.replicate (link.collisions.countP isPlaneCollision)
        groundPlaneSurface := by
  unfold addCollisionsToLink
  exact groundSurfaces_flatMap _ link.collisions

/-- Every surface created by the collision pass carries the fixed contact
material. -/
theorem collisionSurfaces_material (cl : Option Nat) (c : SimbodyCollision) :
    ∀ p ∈ collisionSurfaces cl c, p.2.material = contactMaterial := by
  intro p hp
  rcases c with ⟨rp, sh⟩
  cases sh <;> simp [collisionSurfaces] at hp <;>
    rcases hp with rfl | rfl <;> rfl

/-- Every surface the collision pass puts on the link's own body carries
exactly the clique computed by `addModelClique`. -/
theorem collisionSurfaces_clique (cl : Option Nat) (c : SimbodyCollision) :
    ∀ p ∈ collisionSurfaces cl c,
      p.1 = SurfTarget.mobilizedBody → p.2.clique = cl := by
  intro p hp
  rcases c with ⟨rp, sh⟩
  cases sh <;> simp [collisionSurfaces] at hp <;>
    first
      | (rcases hp with rfl | rfl
         · intro hcontra
           cases hcontra
         · intro _
           rfl)
      | (rcases hp with rfl; intro _; rfl)

/-- A link whose only collision is a heightmap shape. -/
def hmLink : SimbodyLink :=
  ⟨"heightmapLink", false, [⟨⟨idMat, vzero⟩, ShapeData.heightmap⟩], false, 1⟩

/-- Counterexample for C4: a heightmap collision does not yield a dedicated
contact geometry type — `AddCollisionsToLink` falls into the `default:`
branch ("Collision type unimplemented") and creates no contact surface at
all for a link whose only collision is a heightmap. -/
theorem C4_counterexample :
    addCollisionsToLink hmLink (some 0) = [] := rfl

/-- C4 (amended): for every collision shape processed when building a
body's contact geometry, a plane yields a half-space on the link's body
oriented from the declared normal, a sphere yields a sphere of the given
radius, a cylinder of radius `r` and length `len` yields an ellipsoid with
semi-axes `(r, r, len/2)`, and a box yields an ellipsoid sized to its
half-extents; heightmap and mesh shapes are unimplemented in contact
synthesis and produce no geometry (they are skipped with a diagnostic).
Every created surface carries the contact material, and a surface on the
link's own body is joined to the per-model clique exactly when the clique
is valid and the owning link's self-collide flag is false. -/
theorem C4_shape_dispatch (cl : Option Nat) (c : SimbodyCollision)
    (link : SimbodyLink) (modelClique : Option Nat) :
    (∀ n, c.shape = ShapeData.plane n →
       bodySurfacesOf (collisionSurfaces cl c) =
         [⟨ContactGeom.halfSpace, SurfacePlacement.rotFromNegNormalX n,
           contactMaterial, cl⟩]) ∧
    (∀ r, c.shape = ShapeData.sphere r →
       bodySurfacesOf (collisionSurfaces cl c) =
         [⟨ContactGeom.sphere r,
           SurfacePlacement.relTransform (Pose2Transform c.relPose),
           contactMaterial, cl⟩]) ∧
    (∀ r len, c.shape = ShapeData.cylinder r len →
       bodySurfacesOf (collisionSurfaces cl c) =
         [⟨ContactGeom.ellipsoid ⟨r, r, len/2⟩,
           SurfacePlacement.relTransform (Pose2Transform c.relPose),
           contactMaterial, cl⟩]) ∧
    (∀ sz, c.shape = ShapeData.box sz →
       bodySurfacesOf (collisionSurfaces cl c) =
         [⟨ContactGeom.ellipsoid (smul (1/2) sz),
           SurfacePlacement.relTransform (Pose2Transform c.relPose),
           contactMaterial, cl⟩]) ∧
    ((c.shape = ShapeData.heightmap ∨ c.shape = ShapeData.trimesh) →
       collisionSurfaces cl c = []) ∧
    (∀ p ∈ addCollisionsToLink link modelClique,
       p.2.material = contactMaterial) ∧
    (∀ p ∈ addCollisionsToLink link modelClique,
       p.1 = SurfTarget.mobilizedBody →
       p.2.clique =
         (if modelClique.isSome && !link.selfCollide then modelClique
          else none)) := by
  refine ⟨?_, ?_, ?_, ?_, ?_, ?_, ?_⟩
  · intro n hn
    rcases c with ⟨rp, sh⟩
    cases sh <;> simp_all [collisionSurfaces, bodySurfacesOf]
  · intro r hr
    rcases c with ⟨rp, sh⟩
    cases sh <;> simp_all [collisionSurfaces, bodySurfacesOf]
  · intro r len hrl
    rcases c with ⟨rp, sh⟩
    cases sh <;> simp_all [collisionSurfaces, bodySurfacesOf]
  · intro sz hsz
    rcases c with ⟨rp, sh⟩
    cases sh <;> simp_all [collisionSurfaces, bodySurfacesOf]
  · intro hhm
    rcases c with ⟨rp, sh⟩
    rcases hhm with hh | hh <;> cases sh <;> simp_all [collisionSurfaces]
  · intro p hp
    simp only [addCollisionsToLink, List.mem_flatMap] at hp
    obtain ⟨c2, _, hpc⟩ := hp
    exact collisionSurfaces_material _ c2 p hpc
  · intro p hp hmob
    simp only [addCollisionsToLink, List.mem_flatMap] at hp
    obtain ⟨c2, _, hpc⟩ := hp
    have := collisionSurfaces_clique _ c2 p hpc hmob
    simpa using this

/-- A concrete sphere collision for instantiating C4. -/
def cSphereEx : SimbodyCollision := ⟨⟨idMat, vzero⟩, ShapeData.sphere 2⟩

/-- Witness for C4 (amended) at a concrete sphere collision with a valid
clique. -/
theorem C4_witness :
    cSphereEx.shape = ShapeData.sphere 2 ∧
    bodySurfacesOf (collisionSurfaces (some 5) cSphereEx) =
      [⟨ContactGeom.sphere 2,
        SurfacePlacement.relTransform (Pose2Transform cSphereEx.relPose),
        contactMaterial, some 5⟩] :=
  ⟨rfl,
   (C4_shape_dispatch (some 5) cSphereEx hmLink (some 5)).2.1 2 rfl⟩

/-- Swapping the two threads of an interleaving. -/
theorem ilv_swap (ta tb : Tid) {as bs : List LockEv}
    {s : List (Tid × LockEv)} (h : Ilv ta tb as bs s) : Ilv tb ta bs as s := by
  induction h with
  | nil => exact Ilv.nil
  | left _ ih => exact Ilv.right ih
  | right _ ih => exact Ilv.left ih

/-- When the first thread has no events left, the schedule is exactly the
second thread's remaining trace. -/
theorem ilv_nil_left (ta tb : Tid) :
    ∀ (bs : List LockEv) (s : List (Tid × LockEv)),
      Ilv ta tb [] bs s → s = bs.map (fun e => (tb, e)) := by
  intro bs
  induction bs with
  | nil =>
      intro s h
      cases h
      rfl
  | cons e rest ih =>
      intro s h
      cases h with
      | right h2 =>
          rw [List.map_cons]
          exact congrArg _ (ih _ h2)

/-- While one thread holds the lock, the other thread — whose next event is
an acquire — cannot be scheduled, so the holder runs its critical section
to completion before anything else happens. -/
theorem ilv_locked_runs (ta tb : Tid) (hne : ta ≠ tb) :
    ∀ (body tbtr : List LockEv) (s : List (Tid × LockEv)),
      (∀ e ∈ body, e = LockEv.work) →
      (tbtr = [] ∨ ∃ b2, tbtr = LockEv.acq :: b2) →
      Ilv ta tb (body ++ [LockEv.rel]) tbtr s →
      ValidSched (some (ta, 0)) s →
      ∃ s2, s = (body ++ [LockEv.rel]).map (fun e => (ta, e)) ++ s2 ∧
        Ilv ta tb [] tbtr s2 ∧ ValidSched none s2 := by
  intro body
  induction body with
  | nil =>
      intro tbtr s hw hb hI hV
      cases hI with
      | @left e as bs s' hI2 =>
          refine ⟨s', rfl, hI2, ?_⟩
          simpa [ValidSched, lockNext] using hV
      | @right e as bs s' hI2 =>
          exfalso
          rcases hb with hb | ⟨b2, hb⟩
          · exact List.noConfusion hb
          · injection hb with he hbs
            subst he
            simp [ValidSched, lockNext, if_neg (Ne.symm hne)] at hV
  | cons ev rest ih =>
      intro tbtr s hw hb hI hV
      have hev : ev = LockEv.work := hw ev (List.mem_cons_self ev rest)
      cases hI with
      | @left e as bs s' hI2 =>
          subst hev
          have hV2 : ValidSched (some (ta, 0)) s' := by
            simpa [ValidSched, lockNext] using hV
          obtain ⟨s2, hs, hIl, hVn⟩ :=
            ih tbtr s' (fun e2 he2 => hw e2 (List.mem_cons_of_mem _ he2))
              hb hI2 hV2
          exact ⟨s2, by simp [hs], hIl, hVn⟩
      | @right e as bs s' hI2 =>
          exfalso
          rcases hb with hb | ⟨b2, hb⟩
          · exact List.noConfusion hb
          · injection hb with he hbs
            subst he
            simp [ValidSched, lockNext, if_neg (Ne.symm hne)] at hV

/-- Two critical sections guarded by the same recursive mutex serialize: in
every valid schedule one bracketed section runs entirely before the
other. -/
theorem lockedSectionsSerialize (ta tb : Tid) (hne : ta ≠ tb)
    (bodyA bodyB : List LockEv)
    (hA : ∀ e ∈ bodyA, e = LockEv.work)
    (hB : ∀ e ∈ bodyB, e = LockEv.work)
    (s : List (Tid × LockEv))
    (hI : Ilv ta tb (LockEv.acq :: bodyA ++ [LockEv.rel])
            (LockEv.acq :: bodyB ++ [LockEv.rel]) s)
    (hV : ValidSched none s) :
    s = (LockEv.acq :: bodyA ++ [LockEv.rel]).map (fun e => (ta, e)) ++
        (LockEv.acq :: bodyB ++ [LockEv.rel]).map (fun e => (tb, e)) ∨
    s = (LockEv.acq :: bodyB ++ [LockEv.rel]).map (fun e => (tb, e)) ++
        (LockEv.acq :: bodyA ++ [LockEv.rel]).map (fun e => (ta, e)) := by
  cases hI with
  | @left e as bs s' hI2 =>
      left
      have hV2 : ValidSched (some (ta, 0)) s' := by
        simpa [ValidSched, lockNext] using hV
      obtain ⟨s2, hs, hIl, _⟩ :=
        ilv_locked_runs ta tb hne bodyA _ s' hA (Or.inr ⟨_, rfl⟩) hI2 hV2
      have hs2 := ilv_nil_left ta tb _ s2 hIl
      simp [hs, hs2]
  | @right e as bs s' hI2 =>
      right
      have hV2 : ValidSched (some (tb, 0)) s' := by
        simpa [ValidSched, lockNext] using hV
      have hI3 := ilv_swap ta tb hI2
      obtain ⟨s2, hs, hIl, _⟩ :=
        ilv_locked_runs tb ta (Ne.symm hne) bodyB _ s' hB
          (Or.inr ⟨_, rfl⟩) hI3 hV2
      have hs2 := ilv_nil_left tb ta _ s2 hIl
      simp [hs, hs2]

/-- Every event of the body of an `UpdatePhysics` trace is plain work. -/
theorem updatePhysicsWork_isWork (h : ℚ) (hpos : 0 < h) (w : PhysWorld) :
    ∀ e ∈ updatePhysicsWork h hpos w, isWorkEvent e = true := by
  intro e he
  simp only [updatePhysicsWork, List.mem_append, List.mem_replicate,
    List.mem_map, List.mem_singleton] at he
  rcases he with (⟨_, rfl⟩ | ⟨l, _, rfl⟩) | rfl <;> rfl

/-- C9: `UpdatePhysics` acquires the process-wide recursive physics-update
lock as its first action and releases it only when the call returns, so
the whole step (integration, pose synchronisation, force clearing) runs
inside the critical section; consequently, in every valid schedule, a
topology-mutating operation bracketed by the same lock serializes with an
in-flight `UpdatePhysics` call — one runs entirely before the other. -/
theorem C9_update_lock_exclusion (h : ℚ) (hpos : 0 < h) (w : PhysWorld) :
    (updatePhysicsEvents h hpos w =
       PhysEvent.lockAcquire ::
         (updatePhysicsWork h hpos w ++ [PhysEvent.lockRelease]) ∧
     ∀ e ∈ updatePhysicsWork h hpos w, isWorkEvent e = true) ∧
    (∀ (topoBody : List LockEv) (s : List (Tid × LockEv)),
       (∀ e ∈ topoBody, e = LockEv.work) →
       Ilv Tid.phys Tid.topo
         (LockEv.acq ::
           (updatePhysicsWork h hpos w).map toLockEv ++ [LockEv.rel])
         (LockEv.acq :: topoBody ++ [LockEv.rel]) s →
       ValidSched none s →
       s = (LockEv.acq ::
              (updatePhysicsWork h hpos w).map toLockEv ++ [LockEv.rel]).map
              (fun e => (Tid.phys, e)) ++
           (LockEv.acq :: topoBody ++ [LockEv.rel]).map
              (fun e => (Tid.topo, e)) ∨
       s = (LockEv.acq :: topoBody ++ [LockEv.rel]).map
              (fun e => (Tid.topo, e)) ++
           (LockEv.acq ::
              (updatePhysicsWork h hpos w).map toLockEv ++ [LockEv.rel]).map
              (fun e => (Tid.phys, e))) := by
  refine ⟨⟨rfl, updatePhysicsWork_isWork h hpos w⟩, ?_⟩
  intro topoBody s htw hI hV
  refine lockedSectionsSerialize Tid.phys Tid.topo (by simp)
    ((updatePhysicsWork h hpos w).map toLockEv) topoBody ?_ htw s hI hV
  intro e he
  obtain ⟨pe, hpe, rfl⟩ := List.mem_map.mp he
  have := updatePhysicsWork_isWork h hpos w pe hpe
  cases pe <;> simp_all [toLockEv, isWorkEvent]

/-- An empty world at simulation time zero. -/
def wEmpty : PhysWorld := ⟨[], [], 0, 0, []⟩

/-- A concrete valid schedule: the physics thread's whole critical section
followed by the topology thread's. -/
def sPhysTopo : List (Tid × LockEv) :=
  [(Tid.phys, LockEv.acq), (Tid.phys, LockEv.work), (Tid.phys, LockEv.rel),
   (Tid.topo, LockEv.acq), (Tid.topo, LockEv.rel)]

/-- Witness for C9 at a concrete world, topology section and schedule. -/
theorem C9_witness :
    ((0:ℚ) < 1 ∧ (∀ e ∈ ([] : List LockEv), e = LockEv.work) ∧
      ValidSched none sPhysTopo) ∧
    (sPhysTopo = (LockEv.acq ::
         (updatePhysicsWork 1 one_pos_q wEmpty).map toLockEv ++ [LockEv.rel]).map
         (fun e => (Tid.phys, e)) ++
       (LockEv.acq :: ([] : List LockEv) ++ [LockEv.rel]).map
         (fun e => (Tid.topo, e)) ∨
     sPhysTopo = (LockEv.acq :: ([] : List LockEv) ++ [LockEv.rel]).map
         (fun e => (Tid.topo, e)) ++
       (LockEv.acq ::
         (updatePhysicsWork 1 one_pos_q wEmpty).map toLockEv ++ [LockEv.rel]).map
         (fun e => (Tid.phys, e))) := by
  have hsc : stepCount 1 one_pos_q 0 0 = 0 := by
    rw [stepCount]
    norm_num
  have hwk : updatePhysicsWork 1 one_pos_q wEmpty = [PhysEvent.clearForces] := by
    simp [updatePhysicsWork, wEmpty, worldLinks, hsc]
  have hIlv : Ilv Tid.phys Tid.topo
      (LockEv.acq ::
        (updatePhysicsWork 1 one_pos_q wEmpty).map toLockEv ++ [LockEv.rel])
      (LockEv.acq :: ([] : List LockEv) ++ [LockEv.rel]) sPhysTopo := by
    rw [hwk]
    exact Ilv.left (Ilv.left (Ilv.left (Ilv.right (Ilv.right Ilv.nil))))
  have hValid : ValidSched none sPhysTopo := trivial
  exact ⟨⟨one_pos_q, by simp, hValid⟩,
    (C9_update_lock_exclusion 1 one_pos_q wEmpty).2 [] sPhysTopo
      (by simp) hIlv hValid⟩
